import Mathlib

/-!
Verification of the N64 SRAM save converter (n64_sram_converter.py).

The converter reads a DreamDumper64 dump (expected 131072 bytes), asks for
confirmation when the size differs, extracts the first 32768 bytes, computes a
non-zero fill ratio, detects the game from byte markers in the first 1024 bytes
of the region, derives the output path by replacing the extension with ".sav"
when no explicit output path is given, and writes the region to the output file.

Bytes are modelled as natural numbers, buffers as lists of bytes, and the
fallible conversion as an `Option` value: `none` is the failure path on which no
output file is written, and `some` carries the output path and the bytes written.
-/

set_option maxRecDepth 100000

namespace N64Sram

/-- Model of the Python string method `lower`, applied characterwise. -/
def strToLower (s : String) : String := ⟨s.data.map Char.toLower⟩

/-- The marker bytes of `ZELDAZ`. -/
def zeldaMarker : List Nat := [0x5A, 0x45, 0x4C, 0x44, 0x41, 0x5A]

/-- The Mario Golf 64 marker bytes `\x12\x34\x56\x78`. -/
def marioGolfMarker : List Nat := [0x12, 0x34, 0x56, 0x78]

def zeldaLabel : String := "The Legend of Zelda: Ocarina of Time"

def marioGolfLabel : String := "Mario Golf 64"

/-- The marker table of `detect_game_from_save`, in its insertion order. -/
def markers : List (List Nat × String) :=
  [(zeldaMarker, zeldaLabel), (marioGolfMarker, marioGolfLabel)]

/-- Whether `m` is an initial segment of `l` (helper for the substring test). -/
def hasPrefixB : List Nat → List Nat → Bool
  | [], _ => true
  | _ :: _, [] => false
  | a :: ms, b :: ls => a == b && hasPrefixB ms ls

/-- Model of the Python test `m in l` on bytes: `m` occurs contiguously in `l`. -/
def occursIn (m : List Nat) : List Nat → Bool
  | [] => hasPrefixB m []
  | b :: ls => hasPrefixB m (b :: ls) || occursIn m ls

/-- The loop of `detect_game_from_save`: first marker of the table that occurs
in the window wins. -/
def findMarker : List (List Nat × String) → List Nat → Option String
  | [], _ => none
  | (m, label) :: rest, window =>
    if occursIn m window then some label else findMarker rest window

/-- Model of `detect_game_from_save`: scan the marker table against the first
1024 bytes (`data[:1024]`) and return the label of the first match. -/
def detect_game_from_save (data : List Nat) : Option String :=
  findMarker markers (data.take 1024)

/-- Model of a `pathlib` path, split the way `with_suffix` views it: the parent
directory part, the stem of the final component, and its extension. -/
structure SPath where
  parent : String
  stem : String
  ext : String
deriving DecidableEq

/-- Model of `pathlib.Path.with_suffix`: replace the extension of the final
component and keep every other part of the path. -/
def SPath.withSuffix (p : SPath) (s : String) : SPath := ⟨p.parent, p.stem, s⟩

def savSuffix : String := ".sav"

/-- The data of the success path of `convert_sram_save`: the path written to
and the bytes written there. -/
structure ConvertOk where
  outPath : SPath
  outData : List Nat
deriving DecidableEq

/-- Model of `convert_sram_save` on an already-read buffer. `response` is the
answer the user would give to the size-mismatch prompt (consulted only on the
mismatch path), `outputFile` the optional explicit output path, `inputPath` the
input path used to derive the output name. `none` is the failure path
(`return False`), on which no output file is written. -/
def convert_sram_save (data : List Nat) (response : String)
    (outputFile : Option SPath) (inputPath : SPath) : Option ConvertOk :=
  let fileSize := data.length
  if fileSize ≠ 131072 ∧ strToLower response ≠ "y" then
    none
  else
    let sramSize := 32768
    let saveData := data.take sramSize
    if saveData.length ≠ sramSize then
      none
    else
      let outFile :=
        match outputFile with
        | none => inputPath.withSuffix savSuffix
        | some p => p
      some { outPath := outFile, outData := saveData }

/-- Model of the size check `if file_size != 131072`, under the name the spec
gives that operation. -/
inductive ValidationOutcome where
  | Exact : ValidationOutcome
  | Mismatch : Nat → ValidationOutcome
deriving DecidableEq

def validateSize (data : List Nat) : ValidationOutcome :=
  if data.length = 131072 then ValidationOutcome.Exact
  else ValidationOutcome.Mismatch data.length

/-- Model of `sum(1 for b in save_data if b != 0)`. -/
def countNonZero (region : List Nat) : Nat :=
  (region.filter (fun b => b != 0)).length

/-- Model of `(non_zero / len(save_data)) * 100` in exact arithmetic; `none` on
the empty region, where the Python division would raise `ZeroDivisionError`. -/
def computeFillRatio (region : List Nat) : Option ℚ :=
  if region.length = 0 then none
  else some (((countNonZero region : ℚ) / (region.length : ℚ)) * 100)

/-! ### Helper lemmas about the substring search -/

theorem hasPrefixB_iff (m l : List Nat) :
    hasPrefixB m l = true ↔ ∃ t, l = m ++ t := by
  induction m generalizing l with
  | nil => simp [hasPrefixB]
  | cons a ms ih =>
    cases l with
    | nil => simp [hasPrefixB]
    | cons b ls =>
      simp only [hasPrefixB, Bool.and_eq_true, beq_iff_eq, ih, List.cons_append]
      constructor
      · rintro ⟨rfl, t, rfl⟩
        exact ⟨t, rfl⟩
      · rintro ⟨t, h⟩
        injection h with h1 h2
        exact ⟨h1.symm, t, h2⟩

theorem occursIn_iff (m l : List Nat) :
    occursIn m l = true ↔ ∃ pre post, l = pre ++ m ++ post := by
  induction l with
  | nil =>
    simp only [occursIn, hasPrefixB_iff]
    constructor
    · rintro ⟨t, h⟩
      exact ⟨[], t, by simpa using h⟩
    · rintro ⟨pre, post, h⟩
      rcases List.append_eq_nil.mp h.symm with ⟨h1, h2⟩
      rcases List.append_eq_nil.mp h1 with ⟨h3, h4⟩
      exact ⟨[], by simp [h4]⟩
  | cons b ls ih =>
    simp only [occursIn, Bool.or_eq_true, hasPrefixB_iff, ih]
    constructor
    · rintro (⟨t, h⟩ | ⟨pre, post, h⟩)
      · exact ⟨[], t, by simpa using h⟩
      · exact ⟨b :: pre, post, by simp [h]⟩
    · rintro ⟨pre, post, h⟩
      cases pre with
      | nil => exact Or.inl ⟨post, by simpa using h⟩
      | cons p ps =>
        injection h with h1 h2
        exact Or.inr ⟨ps, post, h2⟩

theorem occursIn_of_hasPrefixB (m l : List Nat) (h : hasPrefixB m l = true) :
    occursIn m l = true := by
  cases l with
  | nil => simpa [occursIn] using h
  | cons b ls => simp [occursIn, h]

theorem zeldaLabel_ne_marioGolfLabel : zeldaLabel ≠ marioGolfLabel := by decide

/-! ### Claim theorems -/

/-- C1: for every input buffer of length 131072, the conversion succeeds and the
bytes written to the output file are exactly the first 32768 bytes of the
input, byte-for-byte, with no reordering or byte-swapping. -/
theorem extract_region_exact (data : List Nat) (response : String)
    (outputFile : Option SPath) (inputPath : SPath) (h : data.length = 131072) :
    (convert_sram_save data response outputFile inputPath).map ConvertOk.outData
        = some (data.take 32768) ∧
    (data.take 32768).length = 32768 ∧
    ∀ i, i < 32768 → (data.take 32768).getD i 0 = data.getD i 0 := by
  have h2 : (data.take 32768).length = 32768 := by
    rw [List.length_take, h]
    omega
  refine ⟨?_, h2, ?_⟩
  · simp only [convert_sram_save, h, ne_eq, not_true_eq_false, false_and, if_false, h2,
      not_false_eq_true, if_neg]
    cases outputFile <;> rfl
  · intro i hi
    rw [List.getD_eq_getElem?_getD, List.getD_eq_getElem?_getD, List.getElem?_take,
      if_pos hi]

/-- C1 witness at a concrete 131072-byte buffer. -/
theorem extract_region_exact_witness :
    (convert_sram_save (List.replicate 131072 0) "x" none ⟨"", "ROMF", ".ram"⟩).map
        ConvertOk.outData = some ((List.replicate 131072 (0 : Nat)).take 32768) ∧
    ((List.replicate 131072 (0 : Nat)).take 32768).length = 32768 ∧
    ∀ i, i < 32768 → ((List.replicate 131072 (0 : Nat)).take 32768).getD i 0
        = (List.replicate 131072 (0 : Nat)).getD i 0 :=
  extract_region_exact (List.replicate 131072 0) "x" none ⟨"", "ROMF", ".ram"⟩
    (List.length_replicate 131072 0)

/-- C2: for every input buffer shorter than 32768 bytes, the conversion fails
(whatever the prompt response and paths are), so no output file is produced. -/
theorem short_input_fails (data : List Nat) (response : String)
    (outputFile : Option SPath) (inputPath : SPath) (h : data.length < 32768) :
    convert_sram_save data response outputFile inputPath = none := by
  by_cases hc : data.length ≠ 131072 ∧ strToLower response ≠ "y"
  · simp only [convert_sram_save, if_pos hc]
  · have h2 : (data.take 32768).length ≠ 32768 := by
      rw [List.length_take]
      omega
    simp only [convert_sram_save, if_neg hc, if_pos h2]

/-- C2 witness at the empty buffer with an affirmative response. -/
theorem short_input_fails_witness :
    convert_sram_save [] "y" none ⟨"", "ROMF", ".ram"⟩ = none :=
  short_input_fails [] "y" none ⟨"", "ROMF", ".ram"⟩ (by decide)

/-- C3: classification is a deterministic function of the region bytes: it
returns the Zelda label exactly when the Zelda marker occurs contiguously in the
first 1024 bytes, the Mario Golf label exactly when the Mario Golf marker occurs
there and the Zelda marker (earlier in table order) does not, and nothing
otherwise; in particular, when both markers occur, the earlier table entry
wins. -/
theorem classify_table_order (data : List Nat) :
    (detect_game_from_save data = some zeldaLabel ↔
      ∃ pre post, data.take 1024 = pre ++ zeldaMarker ++ post) ∧
    (detect_game_from_save data = some marioGolfLabel ↔
      (¬ ∃ pre post, data.take 1024 = pre ++ zeldaMarker ++ post) ∧
      ∃ pre post, data.take 1024 = pre ++ marioGolfMarker ++ post) ∧
    (detect_game_from_save data = none ↔
      (¬ ∃ pre post, data.take 1024 = pre ++ zeldaMarker ++ post) ∧
      ¬ ∃ pre post, data.take 1024 = pre ++ marioGolfMarker ++ post) := by
  have hz := occursIn_iff zeldaMarker (data.take 1024)
  have hm := occursIn_iff marioGolfMarker (data.take 1024)
  have hne := zeldaLabel_ne_marioGolfLabel
  simp only [detect_game_from_save, markers, findMarker]
  by_cases h1 : occursIn zeldaMarker (data.take 1024) = true
  · rw [if_pos h1]
    refine ⟨iff_of_true rfl (hz.mp h1), ?_, ?_⟩
    · exact iff_of_false (by simp [hne]) (fun hc => hc.1 (hz.mp h1))
    · exact iff_of_false (by simp) (fun hc => hc.1 (hz.mp h1))
  · rw [if_neg h1]
    by_cases h2 : occursIn marioGolfMarker (data.take 1024) = true
    · rw [if_pos h2]
      refine ⟨?_, ?_, ?_⟩
      · exact iff_of_false (by simp [Ne.symm hne]) (fun hE => h1 (hz.mpr hE))
      · exact iff_of_true rfl ⟨fun hE => h1 (hz.mpr hE), hm.mp h2⟩
      · exact iff_of_false (by simp) (fun hc => hc.2 (hm.mp h2))
    · rw [if_neg h2]
      refine ⟨?_, ?_, ?_⟩
      · exact iff_of_false (by simp) (fun hE => h1 (hz.mpr hE))
      · exact iff_of_false (by simp) (fun hc => h2 (hm.mpr hc.2))
      · exact iff_of_true rfl ⟨fun hE => h1 (hz.mpr hE), fun hE => h2 (hm.mpr hE)⟩

/-- C4: the size check accepts exactly length 131072; any other length is a
mismatch carrying the actual length, and a declined confirmation on the
mismatch path aborts the conversion with no output. -/
theorem validate_size_spec (data : List Nat) (response : String)
    (outputFile : Option SPath) (inputPath : SPath) :
    (validateSize data = ValidationOutcome.Exact ↔ data.length = 131072) ∧
    (data.length ≠ 131072 →
      validateSize data = ValidationOutcome.Mismatch data.length) ∧
    (data.length ≠ 131072 → strToLower response ≠ "y" →
      convert_sram_save data response outputFile inputPath = none) := by
  refine ⟨?_, ?_, ?_⟩
  · by_cases h : data.length = 131072
    · simp [validateSize, h]
    · simp [validateSize, h]
  · intro h
    rw [validateSize, if_neg h]
  · intro h hr
    have hc : data.length ≠ 131072 ∧ strToLower response ≠ "y" := ⟨h, hr⟩
    simp only [convert_sram_save, if_pos hc]

/-- C4 witness: the empty buffer is a mismatch, and the declined confirmation
aborts. -/
theorem validate_size_spec_witness :
    validateSize [] = ValidationOutcome.Mismatch 0 ∧
    convert_sram_save [] "n" none ⟨"", "ROMF", ".ram"⟩ = none :=
  ⟨(validate_size_spec [] "n" none ⟨"", "ROMF", ".ram"⟩).2.1 (by decide),
   (validate_size_spec [] "n" none ⟨"", "ROMF", ".ram"⟩).2.2 (by decide) (by decide)⟩

/-- C5 counterexample: the empty region is vacuously all-zero, yet the fill
ratio on it is the division-by-zero error value, not 0. -/
theorem fill_ratio_empty_cex :
    (∀ b ∈ ([] : List Nat), b = 0) ∧ computeFillRatio [] ≠ some 0 := by
  constructor
  · intro b hb
    exact absurd hb (List.not_mem_nil b)
  · simp [computeFillRatio]

/-- C5 (amended to nonempty regions): the fill ratio is 100 times the count of
non-zero bytes divided by the region length; it is 0 on an all-zero nonempty
region of any size and 100 on a nonempty region with no zero byte. -/
theorem fill_ratio_spec (region : List Nat) (h : region ≠ []) :
    computeFillRatio region
        = some (100 * (countNonZero region : ℚ) / (region.length : ℚ)) ∧
    ((∀ b ∈ region, b = 0) → computeFillRatio region = some 0) ∧
    ((∀ b ∈ region, b ≠ 0) → computeFillRatio region = some 100) := by
  have hlen : region.length ≠ 0 := fun h0 => h (List.length_eq_zero.mp h0)
  have hq : (region.length : ℚ) ≠ 0 := Nat.cast_ne_zero.mpr hlen
  refine ⟨?_, ?_, ?_⟩
  · rw [computeFillRatio, if_neg hlen]
    congr 1
    ring
  · intro hz
    have hc : countNonZero region = 0 := by
      rw [countNonZero, List.length_eq_zero, List.filter_eq_nil_iff]
      intro a ha
      simp [hz a ha]
    rw [computeFillRatio, if_neg hlen, hc]
    norm_num
  · intro hnz
    have hfull : region.filter (fun b => b != 0) = region :=
      List.filter_eq_self.mpr (fun a ha => by simpa using hnz a ha)
    rw [computeFillRatio, if_neg hlen, countNonZero, hfull, div_self hq]
    norm_num

/-- C5 witness: a one-byte zero region gives ratio 0, a one-byte non-zero
region gives ratio 100. -/
theorem fill_ratio_spec_witness :
    computeFillRatio [0] = some 0 ∧ computeFillRatio [7] = some 100 :=
  ⟨(fill_ratio_spec [0] (by decide)).2.1 (by decide),
   (fill_ratio_spec [7] (by decide)).2.2 (by decide)⟩

/-- C6: on the success path, with no explicit output path the output path is
the input path with its extension replaced by ".sav" and nothing else changed;
an explicit output path is used as given and bypasses the derivation. -/
theorem output_path_spec (data : List Nat) (response : String)
    (inputPath explicitOut : SPath) (h : data.length = 131072) :
    ((convert_sram_save data response none inputPath).map ConvertOk.outPath
        = some (inputPath.withSuffix savSuffix) ∧
     inputPath.withSuffix savSuffix
        = ⟨inputPath.parent, inputPath.stem, savSuffix⟩) ∧
    (convert_sram_save data response (some explicitOut) inputPath).map
        ConvertOk.outPath = some explicitOut := by
  have h2 : (data.take 32768).length = 32768 := by
    rw [List.length_take, h]
    omega
  refine ⟨⟨?_, rfl⟩, ?_⟩ <;>
    simp only [convert_sram_save, h, ne_eq, not_true_eq_false, false_and,
      if_false, h2, not_false_eq_true, if_neg] <;>
    rfl

/-- C6 witness at a concrete 131072-byte buffer and concrete paths. -/
theorem output_path_spec_witness :
    ((convert_sram_save (List.replicate 131072 0) "x" none
        ⟨"/saves", "ROMF", ".ram"⟩).map ConvertOk.outPath
      = some (SPath.withSuffix ⟨"/saves", "ROMF", ".ram"⟩ savSuffix) ∧
     SPath.withSuffix ⟨"/saves", "ROMF", ".ram"⟩ savSuffix
      = ⟨"/saves", "ROMF", savSuffix⟩) ∧
    (convert_sram_save (List.replicate 131072 0) "x"
        (some ⟨"", "custom", ".sav"⟩) ⟨"/saves", "ROMF", ".ram"⟩).map
        ConvertOk.outPath = some ⟨"", "custom", ".sav"⟩ :=
  output_path_spec (List.replicate 131072 0) "x" ⟨"/saves", "ROMF", ".ram"⟩
    ⟨"", "custom", ".sav"⟩ (List.length_replicate 131072 0)

/-- A 131072-byte buffer that starts with the Mario Golf marker bytes and also
contains the Zelda marker a little further on. -/
def bothMarkersBuffer : List Nat :=
  marioGolfMarker ++ zeldaMarker ++ List.replicate 131062 0

/-- C7 counterexample: a 131072-byte buffer whose bytes [0,4) are
0x12 0x34 0x56 0x78 but in which the Zelda marker also occurs within the first
1024 bytes; classification returns the Zelda label, not the Mario Golf label,
because the Zelda entry is earlier in the marker table. -/
theorem mario_golf_cex :
    bothMarkersBuffer.length = 131072 ∧
    bothMarkersBuffer.take 4 = [0x12, 0x34, 0x56, 0x78] ∧
    detect_game_from_save bothMarkersBuffer ≠ some marioGolfLabel ∧
    detect_game_from_save bothMarkersBuffer = some zeldaLabel := by
  refine ⟨?_, ?_, ?_, ?_⟩
  · rw [bothMarkersBuffer, List.length_append, List.length_append,
      List.length_replicate]
    decide
  · rfl
  · decide
  · decide

/-- C7 (amended with the proviso that no earlier table entry matches): every
131072-byte buffer whose bytes [0,4) are 0x12 0x34 0x56 0x78 and in which the
Zelda marker does not occur within the first 1024 bytes is classified as Mario
Golf. -/
theorem mario_golf_detected (data : List Nat) (h : data.length = 131072)
    (h4 : data.take 4 = [0x12, 0x34, 0x56, 0x78])
    (hz : ¬ ∃ pre post, data.take 1024 = pre ++ zeldaMarker ++ post) :
    detect_game_from_save data = some marioGolfLabel := by
  have hmin : (4 : ℕ) ⊓ 1024 = 4 := by norm_num
  have hwin4 : (data.take 1024).take 4 = marioGolfMarker := by
    rw [List.take_take, hmin]
    exact h4
  have hpre : hasPrefixB marioGolfMarker (data.take 1024) = true := by
    rw [hasPrefixB_iff]
    refine ⟨(data.take 1024).drop 4, ?_⟩
    conv_lhs => rw [← List.take_append_drop 4 (data.take 1024)]
    rw [hwin4]
  have hmg : occursIn marioGolfMarker (data.take 1024) = true :=
    occursIn_of_hasPrefixB _ _ hpre
  simp only [detect_game_from_save, markers, findMarker]
  rw [if_neg (fun ht => hz ((occursIn_iff _ _).mp ht)), if_pos hmg]

/-- A 131072-byte buffer that starts with the Mario Golf marker bytes and is
zero elsewhere. -/
def marioGolfOnlyBuffer : List Nat :=
  marioGolfMarker ++ List.replicate 131068 0

/-- C7 witness: the buffer with the Mario Golf bytes up front and zeros
elsewhere is classified as Mario Golf. -/
theorem mario_golf_detected_witness :
    detect_game_from_save marioGolfOnlyBuffer = some marioGolfLabel :=
  mario_golf_detected marioGolfOnlyBuffer
    (by rw [marioGolfOnlyBuffer, List.length_append, List.length_replicate]
        decide)
    (by rfl)
    (fun hex => absurd ((occursIn_iff _ _).mpr hex) (by decide))

/-- C8: every buffer of at least 32768 bytes whose length differs from 131072
still converts successfully once the mismatch prompt is answered
affirmatively, and the output is exactly the first 32768 bytes; the mismatch is
not fatal by itself. -/
theorem mismatch_confirmed_succeeds (data : List Nat) (response : String)
    (outputFile : Option SPath) (inputPath : SPath)
    (hge : 32768 ≤ data.length) (hne : data.length ≠ 131072)
    (hy : strToLower response = "y") :
    (convert_sram_save data response outputFile inputPath).map ConvertOk.outData
      = some (data.take 32768) := by
  have hc : ¬(data.length ≠ 131072 ∧ strToLower response ≠ "y") :=
    fun hcon => hcon.2 hy
  have h2 : ¬((data.take 32768).length ≠ 32768) := by
    rw [List.length_take]
    omega
  simp only [convert_sram_save, if_neg hc, if_neg h2]
  cases outputFile <;> rfl

/-- C8 witness at a concrete 65536-byte buffer with response "y". -/
theorem mismatch_confirmed_succeeds_witness :
    (convert_sram_save (List.replicate 65536 0) "y" none
        ⟨"", "ROMF", ".ram"⟩).map ConvertOk.outData
      = some ((List.replicate 65536 (0 : Nat)).take 32768) :=
  mismatch_confirmed_succeeds (List.replicate 65536 0) "y" none
    ⟨"", "ROMF", ".ram"⟩
    (by rw [List.length_replicate]; decide)
    (by rw [List.length_replicate]; decide)
    (by decide)

/-- C9: on the size-mismatch path (here with enough data for extraction), the
conversion proceeds exactly when the lowercased response is "y": "y" and "Y"
continue, while every other response, including "yes", aborts. -/
theorem mismatch_response_spec (data : List Nat) (outputFile : Option SPath)
    (inputPath : SPath) (hne : data.length ≠ 131072)
    (hge : 32768 ≤ data.length) :
    (∀ response : String,
      (convert_sram_save data response outputFile inputPath).isSome = true ↔
        strToLower response = "y") ∧
    (convert_sram_save data "y" outputFile inputPath).isSome = true ∧
    (convert_sram_save data "Y" outputFile inputPath).isSome = true ∧
    (convert_sram_save data "yes" outputFile inputPath).isSome = false := by
  have h2 : ¬((data.take 32768).length ≠ 32768) := by
    rw [List.length_take]
    omega
  have key : ∀ response : String,
      (convert_sram_save data response outputFile inputPath).isSome = true ↔
        strToLower response = "y" := by
    intro response
    by_cases hy : strToLower response = "y"
    · have hc : ¬(data.length ≠ 131072 ∧ strToLower response ≠ "y") :=
        fun hcon => hcon.2 hy
      simp only [convert_sram_save, if_neg hc, if_neg h2]
      cases outputFile <;> simp [hy]
    · have hc : data.length ≠ 131072 ∧ strToLower response ≠ "y" := ⟨hne, hy⟩
      simp only [convert_sram_save, if_pos hc]
      simp [hy]
  refine ⟨key, (key "y").mpr (by decide), (key "Y").mpr (by decide), ?_⟩
  rw [Bool.eq_false_iff]
  intro ht
  exact absurd ((key "yes").mp ht) (by decide)

/-- C9 witness at a concrete 65536-byte buffer. -/
theorem mismatch_response_spec_witness :
    (∀ response : String,
      (convert_sram_save (List.replicate 65536 0) response none
          ⟨"", "ROMF", ".ram"⟩).isSome = true ↔
        strToLower response = "y") ∧
    (convert_sram_save (List.replicate 65536 0) "y" none
        ⟨"", "ROMF", ".ram"⟩).isSome = true ∧
    (convert_sram_save (List.replicate 65536 0) "Y" none
        ⟨"", "ROMF", ".ram"⟩).isSome = true ∧
    (convert_sram_save (List.replicate 65536 0) "yes" none
        ⟨"", "ROMF", ".ram"⟩).isSome = false :=
  mismatch_response_spec (List.replicate 65536 0) none ⟨"", "ROMF", ".ram"⟩
    (by rw [List.length_replicate]; decide)
    (by rw [List.length_replicate]; decide)

/-- A 32768-byte region in which the Zelda marker starts at offset 1020, so it
crosses the 1024-byte window boundary. -/
def straddle10 : List Nat :=
  List.replicate 1020 0 ++ zeldaMarker ++ List.replicate 31742 0

/-- C10: classification only looks at the first 1024 bytes of the region (it is
invariant under truncating the region to 1024 bytes), and a marker occurrence
that starts before offset 1024 but extends past it is not matched: in the
region with the Zelda marker at offset 1020, nothing is detected. -/
theorem marker_window_boundary :
    (∀ data : List Nat,
      detect_game_from_save data = detect_game_from_save (data.take 1024)) ∧
    straddle10.length = 32768 ∧
    (straddle10.drop 1020).take 6 = zeldaMarker ∧
    detect_game_from_save straddle10 = none := by
  refine ⟨?_, ?_, ?_, ?_⟩
  · intro data
    simp only [detect_game_from_save, List.take_take, min_self]
  · rw [straddle10, List.length_append, List.length_append,
      List.length_replicate, List.length_replicate]
    decide
  · decide
  · decide

end N64Sram
